import Mathlib

/-!
Shallow embedding of the e-commerce backend (src/main.py, src/schemas.py).

Python floats are modelled as rationals (ℚ); Python's built-in `round(x, 2)`
is modelled as correctly-rounded decimal rounding to 2 places with ties to
even (banker's rounding), which is Python 3 semantics. MongoDB documents are
modelled as association lists of BSON-like values; the `bson.ObjectId`
constructor accepts exactly the 24-character hexadecimal strings.
-/

namespace ECom

/-- BSON-like values stored in documents: the store's native identifier
(`ObjectId`, carrying its 24-hex-character string form), strings, numbers,
booleans, null, arrays and nested objects. -/
inductive BVal where
  | oid (s : String)
  | str (s : String)
  | num (q : ℚ)
  | boolV (b : Bool)
  | null
  | arr (elems : List BVal)
  | obj (fields : List (String × BVal))

/-- A MongoDB document: an ordered association list from field names to values
(Python dicts preserve insertion order and have unique keys). -/
abbrev Doc : Type := List (String × BVal)

/-- Set key `k` to `v` in a document: Python `out[k] = v` overwrites in place
when the key exists, otherwise appends at the end. -/
def setKey (k : String) (v : BVal) (d : Doc) : Doc :=
  if (List.lookup k d).isSome then
    d.map (fun p => if p.1 = k then (k, v) else p)
  else d ++ [(k, v)]

/-- Delete key `k` from a document: Python `del out[k]`. -/
def delKey (k : String) (d : Doc) : Doc :=
  d.filter (fun p => p.1 ≠ k)

/-- Embedding of `serialize_doc` (src/main.py lines 30-42): on a falsy (empty)
dict return it unchanged; if `_id` is an ObjectId, add `id` as its string form
and delete `_id`; then convert every remaining top-level ObjectId value to its
string form. The source's loop tests `isinstance(v, ObjectId)` on the
top-level values only, so it does not descend into nested lists or dicts. -/
def serialize_doc (doc : Doc) : Doc :=
  if doc.isEmpty then doc
  else
    let out :=
      match List.lookup "_id" doc with
      | some (BVal.oid s) => delKey "_id" (setKey "id" (BVal.str s) doc)
      | _ => doc
    out.map (fun p =>
      match p.2 with
      | BVal.oid s => (p.1, BVal.str s)
      | _ => p)

/-- `True` on the characters accepted by a hexadecimal ObjectId string. -/
def isHexDigit (c : Char) : Bool :=
  c.isDigit || ('a' ≤ c && c ≤ 'f') || ('A' ≤ c && c ≤ 'F')

/-- `bson.ObjectId(s)` succeeds exactly on 24-character hexadecimal strings
(library behavior of the `bson` package used at src/main.py line 115). -/
def isValidObjectId (s : String) : Bool :=
  s.length == 24 && s.toList.all isHexDigit

/-- Round a rational to the nearest integer, ties to even (the rounding used
by Python 3's built-in `round`). -/
def roundHalfEven (x : ℚ) : ℤ :=
  let f := ⌊x⌋
  let r := x - f
  if r < 1 / 2 then f
  else if 1 / 2 < r then f + 1
  else if f % 2 = 0 then f else f + 1

/-- Python's `round(x, 2)`: round to 2 decimal places, ties to even. -/
def round2 (x : ℚ) : ℚ :=
  (roundHalfEven (x * 100) : ℚ) / 100

/-- Validated order item (src/schemas.py `OrderItem`). -/
structure OrderItem where
  product_id : String
  title : String
  price : ℚ
  quantity : ℤ

/-- Validated order (src/schemas.py `Order`). -/
structure Order where
  customer_name : String
  customer_email : String
  customer_phone : Option String
  shipping_address : String
  items : List OrderItem
  subtotal : ℚ
  notes : Option String

/-- Validated product (src/schemas.py `Product`). -/
structure Product where
  title : String
  description : Option String
  price : ℚ
  category : String
  image : Option String
  in_stock : Bool

/-- The subtotal accumulation loop of `create_order` (src/main.py lines
179-181): `subtotal = 0.0; for item in payload.items: subtotal += item.price *
item.quantity`. -/
def order_subtotal (items : List OrderItem) : ℚ :=
  items.foldl (fun acc it => acc + it.price * (it.quantity : ℚ)) 0

/-- The database: the collections the handlers touch. `db` itself is modelled
as `Option DB` — `none` is the Unavailable state (`db is None`). -/
structure DB where
  product : List Doc
  order : List Doc

/-- An HTTP error response (`HTTPException(status_code, detail)`). -/
structure HttpError where
  status : Nat
  detail : String
deriving DecidableEq

/-- `collection.find_one({"_id": ObjectId(id)})`: the first document of the
collection whose `_id` equals the given ObjectId, if any. -/
def findOne (docs : List Doc) (id : String) : Option Doc :=
  docs.find? (fun d =>
    match List.lookup "_id" d with
    | some (BVal.oid s) => s == id
    | _ => false)

/-- One string occurs inside another, as character lists. -/
def isSubstr (needle hay : List Char) : Bool :=
  needle.isPrefixOf hay ||
    match hay with
    | [] => false
    | _ :: t => isSubstr needle t

/-- Case-insensitive substring match (the `$regex` with `$options: "i"` filter
of `list_products`, restricted to literal query strings). -/
def containsCI (hay needle : String) : Bool :=
  isSubstr needle.toLower.toList hay.toLower.toList

/-- A document field, read as a string (missing or non-string fields read as
`""` for filter purposes). -/
def strField (d : Doc) (k : String) : String :=
  match List.lookup k d with
  | some (BVal.str s) => s
  | _ => ""

/-- Modelled from the spec: `get_documents` lives in database.py, which is not
under src/; per §4.3 `query` supports exact-match field filters plus an
optional case-insensitive substring match across title, description and
category. This mirrors the filter dict built by `list_products` (src/main.py
lines 97-106): `category` is an exact match on the category field, `q` is a
case-insensitive match against title, description or category. -/
def matchesFilter (category q : Option String) (d : Doc) : Bool :=
  (match category with
   | none => true
   | some c => if c = "" then true else strField d "category" == c) &&
  (match q with
   | none => true
   | some s =>
     if s = "" then true
     else containsCI (strField d "title") s ||
          containsCI (strField d "description") s ||
          containsCI (strField d "category") s)

/-- Embedding of `list_products` (src/main.py lines 93-107): when the store is
unavailable return the empty list; otherwise filter the product collection and
serialize each document. Falsy (empty-string) query params build no filter,
matching `if category:` / `if q:`. -/
def list_products (db : Option DB) (category q : Option String) : List Doc :=
  match db with
  | none => []
  | some d => (d.product.filter (matchesFilter category q)).map serialize_doc

/-- Embedding of `get_product` (src/main.py lines 110-120): 500 when the store
is unavailable; 400 when `ObjectId(product_id)` raises (identifier not in the
store's format); 404 when no document matches (or the match is falsy);
otherwise the serialized document. -/
def get_product (db : Option DB) (product_id : String) : Except HttpError Doc :=
  match db with
  | none => Except.error ⟨500, "Database not available"⟩
  | some d =>
    if isValidObjectId product_id then
      match findOne d.product product_id with
      | some doc =>
        if doc.isEmpty then Except.error ⟨404, "Product not found"⟩
        else Except.ok (serialize_doc doc)
      | none => Except.error ⟨404, "Product not found"⟩
    else Except.error ⟨400, "Invalid product id"⟩

/-- The document persisted for a validated product (`create_document` dumps
the model's fields and the store assigns `_id`). -/
def productToDoc (id : String) (p : Product) : Doc :=
  [("_id", BVal.oid id),
   ("title", BVal.str p.title),
   ("description", match p.description with | some s => BVal.str s | none => BVal.null),
   ("price", BVal.num p.price),
   ("category", BVal.str p.category),
   ("image", match p.image with | some s => BVal.str s | none => BVal.null),
   ("in_stock", BVal.boolV p.in_stock)]

/-- Embedding of `create_product` (src/main.py lines 123-127). The call
`create_document("product", payload)` is in database.py, which is not under
src/; modelled from the spec §4.3: `create` inserts the validated document,
returns a newly assigned identifier, and fails with StoreUnavailableError
(surfaced as a 500 server error) if the store is unreachable. `newId` is the
store-assigned identifier. The handler then re-fetches and serializes. -/
def create_product (db : Option DB) (newId : String) (p : Product) :
    Except HttpError (DB × Doc) :=
  match db with
  | none => Except.error ⟨500, "Database not available"⟩
  | some d =>
    let d' : DB := { d with product := d.product ++ [productToDoc newId p] }
    Except.ok (d', serialize_doc ((findOne d'.product newId).getD []))

/-- The four sample documents of `seed_products` (src/main.py lines 137-170). -/
def sample_products : List Doc :=
  [[("title", BVal.str "Ready‑Mix Concrete (M25)"),
    ("description", BVal.str "Premium grade M25 ready‑mix concrete suitable for foundations and slabs."),
    ("price", BVal.num 109),
    ("category", BVal.str "Concrete"),
    ("image", BVal.str "https://images.unsplash.com/photo-1591459034474-3c73e6a4c5a3?q=80&w=1200&auto=format&fit=crop"),
    ("in_stock", BVal.boolV true)],
   [("title", BVal.str "TMT Steel Rebars 12mm"),
    ("description", BVal.str "High strength corrosion‑resistant TMT bars for structural reinforcement."),
    ("price", BVal.num (11 / 5)),
    ("category", BVal.str "Steel"),
    ("image", BVal.str "https://images.unsplash.com/photo-1607040327302-8cfb0f2f03b2?q=80&w=1200&auto=format&fit=crop"),
    ("in_stock", BVal.boolV true)],
   [("title", BVal.str "Crushed Stone Aggregate 20mm"),
    ("description", BVal.str "Washed angular aggregate ideal for RCC and road base layers."),
    ("price", BVal.num 35),
    ("category", BVal.str "Aggregates"),
    ("image", BVal.str "https://images.unsplash.com/photo-1566577739112-5180d4bf939b?q=80&w=1200&auto=format&fit=crop"),
    ("in_stock", BVal.boolV true)],
   [("title", BVal.str "Portland Pozzolana Cement (50kg)"),
    ("description", BVal.str "Low‑heat PPC cement with superior durability and workability."),
    ("price", BVal.num (15 / 2)),
    ("category", BVal.str "Cement"),
    ("image", BVal.str "https://images.unsplash.com/photo-1621847468514-f5f8d7c94605?q=80&w=1200&auto=format&fit=crop"),
    ("in_stock", BVal.boolV true)]]

/-- Embedding of `seed_products` (src/main.py lines 130-172): 500 when the
store is unavailable; if the product collection already holds any document,
insert nothing and report 0; otherwise `insert_many` the sample list and
report the number of inserted identifiers. -/
def seed_products (db : Option DB) : Except HttpError (DB × Nat) :=
  match db with
  | none => Except.error ⟨500, "Database not available"⟩
  | some d =>
    if d.product.length > 0 then Except.ok (d, 0)
    else
      Except.ok ({ d with product := d.product ++ sample_products },
                 sample_products.length)

/-- The document persisted for a validated order. -/
def orderItemToDoc (it : OrderItem) : BVal :=
  BVal.obj
    [("product_id", BVal.str it.product_id),
     ("title", BVal.str it.title),
     ("price", BVal.num it.price),
     ("quantity", BVal.num (it.quantity : ℚ))]

/-- The persisted form of an order: the model's fields plus the
store-assigned `_id`. -/
def orderToDoc (id : String) (o : Order) : Doc :=
  [("_id", BVal.oid id),
   ("customer_name", BVal.str o.customer_name),
   ("customer_email", BVal.str o.customer_email),
   ("customer_phone", match o.customer_phone with | some s => BVal.str s | none => BVal.null),
   ("shipping_address", BVal.str o.shipping_address),
   ("items", BVal.arr (o.items.map orderItemToDoc)),
   ("subtotal", BVal.num o.subtotal),
   ("notes", match o.notes with | some s => BVal.str s | none => BVal.null)]

/-- Embedding of `create_order` (src/main.py lines 176-185): the handler
recomputes `payload.subtotal` as `round(Σ price·quantity, 2)` before
persisting, then re-fetches and serializes the stored document. The
`create_document("order", payload)` call is in database.py, not under src/;
modelled from the spec §4.3 as for `create_product` (insert, return a fresh
identifier `newId`, StoreUnavailableError → 500 when unreachable). -/
def create_order (db : Option DB) (newId : String) (payload : Order) :
    Except HttpError (DB × Doc) :=
  match db with
  | none => Except.error ⟨500, "Database not available"⟩
  | some d =>
    let payload' := { payload with subtotal := round2 (order_subtotal payload.items) }
    let d' : DB := { d with order := d.order ++ [orderToDoc newId payload'] }
    Except.ok (d', serialize_doc ((findOne d'.order newId).getD []))

/-- A well-typed incoming product payload: `none` marks an absent field
(pydantic `Field(...)` required fields versus optional fields with
defaults). -/
structure ProductPayload where
  title : Option String
  description : Option String
  price : Option ℚ
  category : Option String
  image : Option String
  in_stock : Option Bool

/-- Pydantic validation errors for the `Product` model (src/schemas.py lines
30-40): `title`, `price`, `category` are required; `price` carries `ge=0`.
Plain `str` fields accept any string, the empty string included. Errors are
collected across all fields (all-or-nothing validation). -/
def productErrors (p : ProductPayload) : List String :=
  (if p.title.isNone then ["title: Field required"] else []) ++
  (match p.price with
   | none => ["price: Field required"]
   | some q => if q < 0 then ["price: Input should be greater than or equal to 0"] else []) ++
  (if p.category.isNone then ["category: Field required"] else [])

/-- Pydantic validation of a product payload: a `ValidationError` listing
every field error, or the validated model with `description`/`image`
defaulting to `None` and `in_stock` defaulting to `True`. -/
def validateProduct (p : ProductPayload) : Except (List String) Product :=
  if productErrors p = [] then
    Except.ok
      { title := p.title.getD ""
        description := p.description
        price := p.price.getD 0
        category := p.category.getD ""
        image := p.image
        in_stock := p.in_stock.getD true }
  else Except.error (productErrors p)

/-- A well-typed incoming order-item payload. -/
structure OrderItemPayload where
  product_id : Option String
  title : Option String
  price : Option ℚ
  quantity : Option ℤ

/-- A well-typed incoming order payload. -/
structure OrderPayload where
  customer_name : Option String
  customer_email : Option String
  customer_phone : Option String
  shipping_address : Option String
  items : Option (List OrderItemPayload)
  subtotal : Option ℚ
  notes : Option String

/-- Modelled from the spec: the email-syntax check performed by pydantic's
`EmailStr` type (library code, not under src/) — per §4.1 `customer_email`
"must match email syntax". Modelled as: exactly one `@`, non-empty local part
and domain, a dot in the domain, no spaces. -/
def isValidEmail (s : String) : Bool :=
  let cs := s.toList
  let lp := cs.takeWhile (· ≠ '@')
  let dom := (cs.dropWhile (· ≠ '@')).drop 1
  (cs.count '@' == 1) && !lp.isEmpty && !dom.isEmpty &&
    dom.contains '.' && !cs.contains ' '

/-- Pydantic validation errors for one `OrderItem` (src/schemas.py lines
42-46): `product_id`, `title`, `price`, `quantity` required; `price` carries
`ge=0`, `quantity` carries `ge=1`. -/
def orderItemErrors (i : OrderItemPayload) : List String :=
  (if i.product_id.isNone then ["product_id: Field required"] else []) ++
  (if i.title.isNone then ["title: Field required"] else []) ++
  (match i.price with
   | none => ["price: Field required"]
   | some q => if q < 0 then ["price: Input should be greater than or equal to 0"] else []) ++
  (match i.quantity with
   | none => ["quantity: Field required"]
   | some n => if n < 1 then ["quantity: Input should be greater than or equal to 1"] else [])

/-- The `items` component of order validation: the field is required; when
present, every item is validated and its errors collected. An empty list is a
valid value for `List[OrderItem]`. -/
def orderItemsErrors (p : OrderPayload) : List String :=
  match p.items with
  | none => ["items: Field required"]
  | some l => (l.map orderItemErrors).flatten

/-- The `subtotal` component of order validation: required, with `ge=0`
(src/schemas.py line 58). -/
def subtotalErrors (p : OrderPayload) : List String :=
  match p.subtotal with
  | none => ["subtotal: Field required"]
  | some q => if q < 0 then ["subtotal: Input should be greater than or equal to 0"] else []

/-- Pydantic validation errors for the `Order` model (src/schemas.py lines
48-59), in field order. `customer_phone` and `notes` are optional. -/
def orderErrors (p : OrderPayload) : List String :=
  (if p.customer_name.isNone then ["customer_name: Field required"] else []) ++
  (match p.customer_email with
   | none => ["customer_email: Field required"]
   | some e => if isValidEmail e then [] else ["customer_email: value is not a valid email address"]) ++
  (if p.shipping_address.isNone then ["shipping_address: Field required"] else []) ++
  orderItemsErrors p ++
  subtotalErrors p

/-- The validated model built from an accepted order payload. -/
def orderOfPayload (p : OrderPayload) : Order :=
  { customer_name := p.customer_name.getD ""
    customer_email := p.customer_email.getD ""
    customer_phone := p.customer_phone
    shipping_address := p.shipping_address.getD ""
    items := (p.items.getD []).map (fun i =>
      { product_id := i.product_id.getD ""
        title := i.title.getD ""
        price := i.price.getD 0
        quantity := i.quantity.getD 0 })
    subtotal := p.subtotal.getD 0
    notes := p.notes }

/-- Pydantic validation of an order payload: a `ValidationError` listing every
field error, or the validated model (all-or-nothing). -/
def validateOrder (p : OrderPayload) : Except (List String) Order :=
  if orderErrors p = [] then Except.ok (orderOfPayload p)
  else Except.error (orderErrors p)

/-! ## Theorems -/

/-- C9: `serialize_doc` converts the document's own `_id` to string form, but
an ObjectId nested inside the `items` array is NOT converted: the loop at
src/main.py lines 39-41 only inspects top-level values, contradicting the
source's own comment "Convert any nested ObjectId (e.g., in items)". The
theorem evaluates the code at the failing input: the nested identifier
survives as an ObjectId in the output. -/
theorem serialize_doc_keeps_nested_oid :
    serialize_doc
      [("_id", BVal.oid "aabbccddeeff001122334455"),
       ("items", BVal.arr [BVal.obj [("product_id", BVal.oid "ffeeddccbbaa998877665544")]])] =
      [("items", BVal.arr [BVal.obj [("product_id", BVal.oid "ffeeddccbbaa998877665544")]]),
       ("id", BVal.str "aabbccddeeff001122334455")] := rfl

/-- C7: when the store connection is unavailable (`db is None`), the product
list endpoint returns the empty sequence rather than an error, while the
single-product detail path and the write paths (product creation, order
creation) surface a 500 server error (StoreUnavailableError) to the caller. -/
theorem store_unavailable_behavior :
    (∀ category q, list_products none category q = []) ∧
    (∀ pid, get_product none pid = Except.error ⟨500, "Database not available"⟩) ∧
    (∀ newId p, create_product none newId p = Except.error ⟨500, "Database not available"⟩) ∧
    (∀ newId o, create_order none newId o = Except.error ⟨500, "Database not available"⟩) :=
  ⟨fun _ _ => rfl, fun _ => rfl, fun _ _ => rfl, fun _ _ => rfl⟩

/-- C8: seeding with a non-empty product collection returns inserted = 0 and
leaves the database unchanged; seeding an empty product collection inserts
exactly the 4 sample documents and returns inserted = 4. -/
theorem seed_products_spec (d : DB) :
    (d.product ≠ [] → seed_products (some d) = Except.ok (d, 0)) ∧
    (d.product = [] →
      seed_products (some d) = Except.ok (⟨sample_products, d.order⟩, 4) ∧
      sample_products.length = 4) := by
  constructor
  · intro h
    have hl : d.product.length > 0 := List.length_pos.mpr h
    simp [seed_products, hl]
  · intro h
    constructor
    · simp [seed_products, h, sample_products]
    · rfl

/-- Witness for C8: seeding a database holding one product document changes
nothing and reports 0; seeding an empty database inserts the 4 samples. -/
theorem seed_products_spec_witness :
    seed_products (some ⟨[[("title", BVal.str "t")]], []⟩) =
      Except.ok (⟨[[("title", BVal.str "t")]], []⟩, 0) ∧
    seed_products (some ⟨[], []⟩) = Except.ok (⟨sample_products, []⟩, 4) := by
  constructor
  · exact (seed_products_spec ⟨[[("title", BVal.str "t")]], []⟩).1 (by simp)
  · exact ((seed_products_spec ⟨[], []⟩).2 rfl).1

/-- A document returned by `findOne` satisfies the `_id` predicate, hence is
not the empty (falsy) dict. -/
theorem findOne_some_not_empty {docs : List Doc} {id : String} {doc : Doc}
    (h : findOne docs id = some doc) : doc.isEmpty = false := by
  have hp := List.find?_some h
  cases doc with
  | nil => simp [List.lookup] at hp
  | cons a t => rfl

/-- C6: fetching a single product fails with the 400 InvalidIdentifierError
exactly when the identifier is not a well-formed ObjectId string, fails with
the 404 NotFoundError exactly when it is well-formed but no document matches,
and returns the serialized document when a match exists. -/
theorem get_product_spec (d : DB) (pid : String) :
    (get_product (some d) pid = Except.error ⟨400, "Invalid product id"⟩ ↔
      isValidObjectId pid = false) ∧
    (get_product (some d) pid = Except.error ⟨404, "Product not found"⟩ ↔
      isValidObjectId pid = true ∧ findOne d.product pid = none) ∧
    (∀ doc, isValidObjectId pid = true → findOne d.product pid = some doc →
      get_product (some d) pid = Except.ok (serialize_doc doc)) := by
  by_cases h : isValidObjectId pid = true
  · cases hf : findOne d.product pid with
    | none =>
      refine ⟨?_, ?_, ?_⟩
      · simp [get_product, h, hf]
      · simp [get_product, h, hf]
      · intro doc _ hd
        exact Option.noConfusion hd
    | some doc =>
      have he : doc.isEmpty = false := findOne_some_not_empty hf
      refine ⟨?_, ?_, ?_⟩
      · simp [get_product, h, hf, he]
      · simp [get_product, h, hf, he]
      · intro doc' _ hd
        cases hd
        simp [get_product, h, hf, he]
  · have h' : isValidObjectId pid = false := by
      simpa [Bool.not_eq_true] using h
    refine ⟨?_, ?_, ?_⟩ <;> simp [get_product, h']

/-- A sample stored product document, used to witness C6. -/
def prodDocEx : Doc :=
  [("_id", BVal.oid "aabbccddeeff001122334455"),
   ("title", BVal.str "T"),
   ("price", BVal.num 109),
   ("category", BVal.str "C")]

/-- Witness for C6: on a store holding one product, a malformed identifier
gives 400, a well-formed absent one gives 404, and the stored one is
returned serialized. -/
theorem get_product_spec_witness :
    get_product (some ⟨[prodDocEx], []⟩) "not-an-id" =
      Except.error ⟨400, "Invalid product id"⟩ ∧
    get_product (some ⟨[prodDocEx], []⟩) "ffeeddccbbaa998877665544" =
      Except.error ⟨404, "Product not found"⟩ ∧
    get_product (some ⟨[prodDocEx], []⟩) "aabbccddeeff001122334455" =
      Except.ok (serialize_doc prodDocEx) := by
  refine ⟨?_, ?_, ?_⟩
  · exact (get_product_spec ⟨[prodDocEx], []⟩ "not-an-id").1.mpr rfl
  · exact (get_product_spec ⟨[prodDocEx], []⟩ "ffeeddccbbaa998877665544").2.1.mpr ⟨rfl, rfl⟩
  · exact (get_product_spec ⟨[prodDocEx], []⟩ "aabbccddeeff001122334455").2.2 prodDocEx rfl rfl

/-- C1: for every accepted order, the persisted subtotal is the server-side
`round(Σ price·quantity, 2)` (Python's 2-place rounding, ties to even) over
the order's items, and the client-supplied `subtotal` field has no effect on
the outcome of order creation. -/
theorem create_order_recomputes_subtotal (d : DB) (newId : String) (p : Order) :
    (∀ s : ℚ, create_order (some d) newId { p with subtotal := s } =
      create_order (some d) newId p) ∧
    (∀ d' doc, create_order (some d) newId p = Except.ok (d', doc) →
      ∃ stored, d'.order = d.order ++ [stored] ∧
        List.lookup "subtotal" stored =
          some (BVal.num (round2 (order_subtotal p.items)))) := by
  constructor
  · intro s
    rfl
  · intro d' doc h
    simp only [create_order, Except.ok.injEq, Prod.mk.injEq] at h
    obtain ⟨h1, -⟩ := h
    subst h1
    exact ⟨orderToDoc newId { p with subtotal := round2 (order_subtotal p.items) }, rfl, rfl⟩

/-- A concrete valid order used to witness C1. -/
def orderEx : Order :=
  { customer_name := "Jane Doe"
    customer_email := "jane@example.com"
    customer_phone := none
    shipping_address := "1 Main St"
    items := [⟨"aabbccddeeff001122334455", "Cement", 15 / 2, 3⟩]
    subtotal := 999
    notes := none }

/-- Witness for C1: on a concrete order, replacing the client subtotal by 5
leaves creation unchanged, and the stored document carries the recomputed
subtotal. -/
theorem create_order_recomputes_subtotal_witness :
    (create_order (some ⟨[], []⟩) "0123456789abcdef01234567" { orderEx with subtotal := 5 } =
      create_order (some ⟨[], []⟩) "0123456789abcdef01234567" orderEx) ∧
    ∃ d' doc stored,
      create_order (some ⟨[], []⟩) "0123456789abcdef01234567" orderEx = Except.ok (d', doc) ∧
      d'.order = [] ++ [stored] ∧
      List.lookup "subtotal" stored =
        some (BVal.num (round2 (order_subtotal orderEx.items))) := by
  constructor
  · exact (create_order_recomputes_subtotal ⟨[], []⟩ "0123456789abcdef01234567" orderEx).1 5
  · obtain ⟨st, h1, h2⟩ :=
      (create_order_recomputes_subtotal ⟨[], []⟩ "0123456789abcdef01234567" orderEx).2 _ _ rfl
    exact ⟨_, _, st, rfl, h1, h2⟩

/-- Python's `round(25.005, 2)` under the embedding: 25.005 = 5001/200 lies
exactly on the .005 boundary and ties go to the even hundredth, giving 25,
not 25.01. (The CPython float computation agrees: the IEEE-754 double for
5.005 is strictly below 5.005, so `round(10.00*2 + 5.005, 2) == 25.0`.) -/
theorem round2_boundary : round2 (5001 / 200) = 25 := by
  have hm : (5001 / 200 : ℚ) * 100 = 5001 / 2 := by norm_num
  have hf : ⌊(5001 / 2 : ℚ)⌋ = 2500 := by norm_num
  have hr : roundHalfEven (5001 / 2) = 2500 := by
    rw [roundHalfEven]
    simp only [hf]
    norm_num
  rw [round2, hm, hr]
  norm_num

/-- The order payload of C2: items priced 10.00 × 2 and 5.005 × 1, with an
arbitrary client subtotal. -/
def orderC2 : Order :=
  { customer_name := "Jane Doe"
    customer_email := "jane@example.com"
    customer_phone := none
    shipping_address := "1 Main St"
    items := [⟨"p1", "Item A", 10, 2⟩, ⟨"p2", "Item B", 1001 / 200, 1⟩]
    subtotal := 999
    notes := none }

/-- Counterexample to C2 as stated: for the payload with items
[{price 10.00, quantity 2}, {price 5.005, quantity 1}] the persisted subtotal
is 25, not 25.01 — Python's `round` takes the exact .005 tie to the even
hundredth (and the IEEE-754 float sum is even strictly below 25.005). -/
theorem create_order_c2_counterexample :
    round2 (order_subtotal orderC2.items) = 25 ∧ (25 : ℚ) ≠ 2501 / 100 ∧
    ∃ d' doc stored,
      create_order (some ⟨[], []⟩) "0123456789abcdef01234567" orderC2 = Except.ok (d', doc) ∧
      d'.order = [stored] ∧
      List.lookup "subtotal" stored = some (BVal.num 25) := by
  have hs : order_subtotal orderC2.items = 5001 / 200 := by
    simp only [orderC2, order_subtotal, List.foldl]
    norm_num
  have h25 : round2 (order_subtotal orderC2.items) = 25 := by
    rw [hs, round2_boundary]
  refine ⟨h25, by norm_num, ?_⟩
  refine ⟨_, _, orderToDoc "0123456789abcdef01234567"
    { orderC2 with subtotal := round2 (order_subtotal orderC2.items) }, rfl, rfl, ?_⟩
  show some (BVal.num (round2 (order_subtotal orderC2.items))) = some (BVal.num 25)
  rw [h25]

/-- C2 as amended: for any order whose items have exactly the (price,
quantity) pairs (10.00, 2) and (5.005, 1), the persisted subtotal is 25.00
(banker's rounding of the exact tie 25.005), regardless of the
client-supplied subtotal. -/
theorem create_order_c2_amended (p : Order) (d : DB) (newId : String)
    (h : p.items.map (fun i => (i.price, i.quantity)) =
      [((10 : ℚ), (2 : ℤ)), ((1001 / 200 : ℚ), (1 : ℤ))]) :
    ∃ d' doc stored,
      create_order (some d) newId p = Except.ok (d', doc) ∧
      d'.order = d.order ++ [stored] ∧
      List.lookup "subtotal" stored = some (BVal.num 25) := by
  have hs : order_subtotal p.items = 5001 / 200 := by
    cases hp : p.items with
    | nil => rw [hp] at h; simp at h
    | cons a t =>
      cases t with
      | nil => rw [hp] at h; simp at h
      | cons b t2 =>
        cases t2 with
        | cons c t3 => rw [hp] at h; simp at h
        | nil =>
          rw [hp] at h
          simp only [List.map, List.cons.injEq, Prod.mk.injEq, List.nil_eq] at h
          obtain ⟨⟨hap, haq⟩, ⟨hbp, hbq⟩, -⟩ := h
          simp only [order_subtotal, List.foldl, hap, haq, hbp, hbq]
          norm_num
  refine ⟨_, _, orderToDoc newId
    { p with subtotal := round2 (order_subtotal p.items) }, rfl, rfl, ?_⟩
  show some (BVal.num (round2 (order_subtotal p.items))) = some (BVal.num 25)
  rw [hs, round2_boundary]

/-- Witness for the amended C2: the concrete payload `orderC2` has exactly
those items, and creating it against an empty store persists subtotal 25. -/
theorem create_order_c2_amended_witness :
    ∃ d' doc stored,
      create_order (some ⟨[], []⟩) "0123456789abcdef01234567" orderC2 = Except.ok (d', doc) ∧
      d'.order = [] ++ [stored] ∧
      List.lookup "subtotal" stored = some (BVal.num 25) :=
  create_order_c2_amended orderC2 ⟨[], []⟩ "0123456789abcdef01234567" rfl

/-- Counterexample to C4 as stated: the claim requires validation to fail on
an empty title (and empty category), but pydantic `str` fields accept the
empty string — the payload with title = "", price = 0, category = "" is
accepted, with the optional fields taking their defaults. -/
theorem validateProduct_counterexample :
    validateProduct ⟨some "", none, some 0, some "", none, none⟩ =
      Except.ok ⟨"", none, 0, "", none, true⟩ := rfl

/-- C4 as amended: product validation fails exactly when title is missing,
price is missing or negative, or category is missing (empty strings are
accepted); accepted payloads default description and image to none and
in_stock to true. -/
theorem validateProduct_spec (p : ProductPayload) :
    ((validateProduct p).isOk = true ↔
      p.title.isSome = true ∧ p.category.isSome = true ∧
      ∃ q, p.price = some q ∧ 0 ≤ q) ∧
    (∀ pr, validateProduct p = Except.ok pr →
      pr.description = p.description ∧ pr.image = p.image ∧
      pr.in_stock = p.in_stock.getD true) := by
  have herr : productErrors p = [] ↔
      (p.title.isSome = true ∧ p.category.isSome = true ∧
        ∃ q, p.price = some q ∧ 0 ≤ q) := by
    cases ht : p.title <;> cases hc : p.category <;> cases hq : p.price <;>
      simp [productErrors, ht, hc, hq, not_lt, and_comm]
  constructor
  · rw [← herr]
    by_cases h : productErrors p = [] <;>
      simp [validateProduct, h, Except.isOk, Except.toBool]
  · intro pr hpr
    by_cases h : productErrors p = []
    · simp only [validateProduct, h, if_true, Except.ok.injEq] at hpr
      rw [← hpr]
      exact ⟨rfl, rfl, rfl⟩
    · simp [validateProduct, h] at hpr

/-- Witness for the amended C4: a payload with empty title and category but
well-formed price is accepted, and its optional fields default. -/
theorem validateProduct_spec_witness :
    (validateProduct ⟨some "", none, some 109, some "", none, none⟩).isOk = true ∧
    ∀ pr, validateProduct ⟨some "", none, some 109, some "", none, none⟩ = Except.ok pr →
      pr.description = none ∧ pr.image = none ∧ pr.in_stock = true := by
  constructor
  · exact (validateProduct_spec ⟨some "", none, some 109, some "", none, none⟩).1.mpr
      ⟨rfl, rfl, 109, rfl, by decide⟩
  · intro pr hpr
    exact (validateProduct_spec ⟨some "", none, some 109, some "", none, none⟩).2 pr hpr

/-- C5: order validation fails (with a non-empty all-or-nothing error list,
and no validated order is produced) whenever customer_name, customer_email or
shipping_address is missing, the email does not match email syntax, items is
missing, or any item has quantity < 1, price < 0, or a missing product_id or
title. -/
theorem validateOrder_rejects (p : OrderPayload) :
    (p.customer_name = none ∨
     p.customer_email = none ∨
     (∃ e, p.customer_email = some e ∧ isValidEmail e = false) ∨
     p.shipping_address = none ∨
     p.items = none ∨
     (∃ l i, p.items = some l ∧ i ∈ l ∧
       (i.product_id = none ∨ i.title = none ∨
        (∃ q, i.price = some q ∧ q < 0) ∨
        (∃ n, i.quantity = some n ∧ n < 1)))) →
    ∃ errs, validateOrder p = Except.error errs ∧ errs ≠ [] := by
  intro hbad
  have hne : orderErrors p ≠ [] := by
    intro hz
    rw [orderErrors] at hz
    simp only [List.append_eq_nil] at hz
    obtain ⟨⟨⟨⟨hn, he⟩, ha⟩, hi⟩, hs⟩ := hz
    rcases hbad with h | h | h | h | h | h
    · rw [h] at hn; simp at hn
    · rw [h] at he; simp at he
    · obtain ⟨e, he1, he2⟩ := h
      rw [he1] at he; simp [he2] at he
    · rw [h] at ha; simp at ha
    · simp [orderItemsErrors, h] at hi
    · obtain ⟨l, i, hl, hmem, hbadi⟩ := h
      simp only [orderItemsErrors, hl] at hi
      rw [List.flatten_eq_nil_iff] at hi
      have hie : orderItemErrors i = [] :=
        hi (orderItemErrors i) (List.mem_map_of_mem _ hmem)
      simp only [orderItemErrors, List.append_eq_nil] at hie
      obtain ⟨⟨⟨hp1, ht1⟩, hpr⟩, hq⟩ := hie
      rcases hbadi with hb | hb | hb | hb
      · rw [hb] at hp1; simp at hp1
      · rw [hb] at ht1; simp at ht1
      · obtain ⟨q, hq1, hq2⟩ := hb
        rw [hq1] at hpr; simp [hq2] at hpr
      · obtain ⟨n, hn1, hn2⟩ := hb
        rw [hn1] at hq; simp [hn2] at hq
  exact ⟨orderErrors p, by simp [validateOrder, hne], hne⟩

/-- Witness for C5: a payload whose single item has quantity 0 is rejected
with a non-empty error list. -/
theorem validateOrder_rejects_witness :
    ∃ errs, validateOrder
      ⟨some "Jane Doe", some "jane@example.com", none, some "1 Main St",
       some [⟨some "p1", some "Cement", some 5, some 0⟩], some 10, none⟩ =
        Except.error errs ∧ errs ≠ [] :=
  validateOrder_rejects
    ⟨some "Jane Doe", some "jane@example.com", none, some "1 Main St",
     some [⟨some "p1", some "Cement", some 5, some 0⟩], some 10, none⟩
    (Or.inr (Or.inr (Or.inr (Or.inr (Or.inr
      ⟨[⟨some "p1", some "Cement", some 5, some 0⟩],
       ⟨some "p1", some "Cement", some 5, some 0⟩, rfl, by simp,
       Or.inr (Or.inr (Or.inr ⟨0, rfl, by decide⟩))⟩)))))

/-- C10: the order payload must carry a subtotal ≥ 0 — validation rejects a
missing or negative subtotal — even though order creation then discards the
client value and overwrites it with the recomputed subtotal. -/
theorem order_subtotal_required_and_overwritten (p : OrderPayload) (o : Order) :
    (p.subtotal = none → ∃ errs, validateOrder p = Except.error errs ∧ errs ≠ []) ∧
    ((∃ q, p.subtotal = some q ∧ q < 0) →
      ∃ errs, validateOrder p = Except.error errs ∧ errs ≠ []) ∧
    (∀ s d newId, create_order (some d) newId { o with subtotal := s } =
      create_order (some d) newId o) := by
  have key : subtotalErrors p ≠ [] →
      ∃ errs, validateOrder p = Except.error errs ∧ errs ≠ [] := by
    intro hs
    have hne : orderErrors p ≠ [] := by
      intro hz
      rw [orderErrors] at hz
      simp only [List.append_eq_nil] at hz
      exact hs hz.2
    exact ⟨orderErrors p, by simp [validateOrder, hne], hne⟩
  refine ⟨?_, ?_, fun s d newId => rfl⟩
  · intro h
    exact key (by rw [subtotalErrors, h]; simp)
  · intro ⟨q, hq1, hq2⟩
    exact key (by rw [subtotalErrors, hq1]; simp [hq2])

/-- Witness for C10: a payload without subtotal and one with subtotal -5 are
both rejected; the client subtotal 7 is overwritten just like 999. -/
theorem order_subtotal_required_and_overwritten_witness :
    (∃ errs, validateOrder
      ⟨some "Jane Doe", some "jane@example.com", none, some "1 Main St",
       some [], none, none⟩ = Except.error errs ∧ errs ≠ []) ∧
    (∃ errs, validateOrder
      ⟨some "Jane Doe", some "jane@example.com", none, some "1 Main St",
       some [], some (-5), none⟩ = Except.error errs ∧ errs ≠ []) ∧
    create_order (some ⟨[], []⟩) "0123456789abcdef01234567" { orderEx with subtotal := 7 } =
      create_order (some ⟨[], []⟩) "0123456789abcdef01234567" orderEx := by
  refine ⟨?_, ?_, ?_⟩
  · exact (order_subtotal_required_and_overwritten
      ⟨some "Jane Doe", some "jane@example.com", none, some "1 Main St",
       some [], none, none⟩ orderEx).1 rfl
  · exact (order_subtotal_required_and_overwritten
      ⟨some "Jane Doe", some "jane@example.com", none, some "1 Main St",
       some [], some (-5), none⟩ orderEx).2.1 ⟨-5, rfl, by decide⟩
  · exact (order_subtotal_required_and_overwritten
      ⟨some "Jane Doe", some "jane@example.com", none, some "1 Main St",
       some [], none, none⟩ orderEx).2.2 7 ⟨[], []⟩ "0123456789abcdef01234567"

/-- C3: an empty items list contributes no validation error, and an order
validated from a payload with empty items is created with computed subtotal
0.0. -/
theorem order_empty_items_ok (p : OrderPayload) (h : p.items = some []) :
    orderItemsErrors p = [] ∧
    (∀ o, validateOrder p = Except.ok o → o.items = [] ∧
      round2 (order_subtotal o.items) = 0 ∧
      ∀ d newId, ∃ d' doc stored,
        create_order (some d) newId o = Except.ok (d', doc) ∧
        d'.order = d.order ++ [stored] ∧
        List.lookup "subtotal" stored = some (BVal.num 0)) := by
  refine ⟨by simp [orderItemsErrors, h], ?_⟩
  intro o ho
  by_cases hz : orderErrors p = []
  · simp only [validateOrder, hz, if_true, Except.ok.injEq] at ho
    have hoi : o.items = [] := by
      rw [← ho]
      simp [orderOfPayload, h]
    have h0 : round2 (order_subtotal o.items) = 0 := by
      rw [hoi]
      show round2 0 = 0
      rw [round2, roundHalfEven]
      norm_num
    refine ⟨hoi, h0, ?_⟩
    intro d newId
    refine ⟨_, _, orderToDoc newId { o with subtotal := round2 (order_subtotal o.items) },
      rfl, rfl, ?_⟩
    show some (BVal.num (round2 (order_subtotal o.items))) = some (BVal.num 0)
    rw [h0]
  · simp [validateOrder, hz] at ho

/-- The C3 payload: a valid order with an empty items list. -/
def pEmptyItems : OrderPayload :=
  ⟨some "Jane Doe", some "jane@example.com", none, some "1 Main St",
   some [], some 5, none⟩

/-- Witness for C3: the concrete empty-items payload validates, and creating
the resulting order persists subtotal 0. -/
theorem order_empty_items_ok_witness :
    orderItemsErrors pEmptyItems = [] ∧
    (orderOfPayload pEmptyItems).items = [] ∧
    ∃ d' doc stored,
      create_order (some ⟨[], []⟩) "0123456789abcdef01234567" (orderOfPayload pEmptyItems) =
        Except.ok (d', doc) ∧
      d'.order = [] ++ [stored] ∧
      List.lookup "subtotal" stored = some (BVal.num 0) := by
  obtain ⟨h1, h2⟩ := order_empty_items_ok pEmptyItems rfl
  obtain ⟨hi, -, h3⟩ := h2 (orderOfPayload pEmptyItems) rfl
  obtain ⟨d', doc, st, ha, hb, hc⟩ := h3 ⟨[], []⟩ "0123456789abcdef01234567"
  exact ⟨h1, hi, d', doc, st, ha, hb, hc⟩

end ECom
